import Mathlib

/-! Verification development for the RAG pipeline of US-FoodScope.

The definitions below are a shallow embedding of the Python sources
`us_foodscope/health/serving/generate_assets.py` (offline asset build) and
`us_foodscope/health/serving/rag_service.py` (online service).  External
capabilities are passed as function parameters: the sentence-transformer
encoder (`encode`), FAISS L2 normalization (`normalizeFn`), and the Groq
chat-completion call (`completion`).  Machine floats are modelled as `ℚ`;
a pandas cell is `Option String` (`none` models a missing/NaN value, so
`pd.notna` is `Option.isSome`, and the `String` is the text that Python
interpolation would print for the value). -/

/-- A pandas cell value as used by `row_to_text`: `none` is missing/NaN. -/
abbrev Val := Option String

/-- An embedding vector (numpy float row, modelled over `ℚ`). -/
abbrev Vec := List ℚ

/-- One row of the joined dataframe `df_combined` in `generate_assets.py`:
the primary `rag_df.csv` columns plus the left-joined risk columns. -/
structure Row where
  County : Val
  State : Val
  Population : Val
  Poverty_Rate : Val
  Median_Income : Val
  Adult_Obesity_Rate13 : Val
  Adult_Diabetes_Rate13 : Val
  Grocery_Stores_Per1000 : Val
  Farmers_Markets_Count_16 : Val
  FOODINSEC_13_15 : Val
  PCT_LACCESS_POP15 : Val
  FFRPTH14 : Val
  GYMs_Per_1000_Count_14 : Val
  composite_risk : Val
  Cluster : Val
  Description : Val
  Rule_Description : Val
deriving DecidableEq

/-- Header line of a profile: `f"Comprehensive Profile for {county}, {state}:"`. -/
def headerLine (r : Row) : String :=
  "Comprehensive Profile for " ++ ((r.County.getD "Unknown County") ++ (", " ++ ((r.State.getD "Unknown State") ++ ":")))

/-- Alert line emitted when `pd.notna(row.get('composite_risk'))`. -/
def alertLine (r : Row) : String :=
  "!!! ALERT: This county is identified as a Highest Composite Health Risk area (Cluster " ++ ((r.Cluster.getD "None") ++ ").")

/-- Risk-score line following the alert line. -/
def riskScoreLine (risk : String) : String :=
  "- Composite Health Risk Score: " ++ (risk ++ ".")

/-- Demographics line. -/
def demographicsLine (r : Row) : String :=
  "- Demographics: Population: " ++ ((r.Population.getD "N/A") ++ (", Poverty Rate: " ++ ((r.Poverty_Rate.getD "N/A") ++ ("%, Median Income: $" ++ ((r.Median_Income.getD "N/A") ++ ".")))))

/-- Health-outcomes line. -/
def healthLine (r : Row) : String :=
  "- Health Outcomes: Adult Obesity Rate: " ++ ((r.Adult_Obesity_Rate13.getD "N/A") ++ ("%, Adult Diabetes Rate: " ++ ((r.Adult_Diabetes_Rate13.getD "N/A") ++ "%.")))

/-- Food-environment line (built by two consecutive `text +=` in the source;
only the second piece ends with a newline, so they form one output line). -/
def foodEnvLine (r : Row) : String :=
  "- Food Environment: " ++ ((r.Grocery_Stores_Per1000.getD "N/A") ++ (" grocery stores per 1k residents, " ++ ((r.Farmers_Markets_Count_16.getD "N/A") ++ (" farmers markets. Fast food density: " ++ ((r.FFRPTH14.getD "N/A") ++ "/1k residents.")))))

/-- Food-security line. -/
def foodSecLine (r : Row) : String :=
  "- Food Security: Food insecurity: " ++ ((r.FOODINSEC_13_15.getD "N/A") ++ ("%. " ++ ((r.PCT_LACCESS_POP15.getD "N/A") ++ "% of pop. has low food access.")))

/-- Physical-activity line. -/
def physActivityLine (r : Row) : String :=
  "- Physical Activity: Gym density: " ++ ((r.GYMs_Per_1000_Count_14.getD "N/A") ++ "/1k residents.")

/-- Environmental-context line, emitted when `Description` is non-null. -/
def envContextLine (d : String) : String :=
  "- Environmental Context: " ++ d

/-- Policy-context line, emitted when `Rule_Description` is non-null. -/
def policyContextLine (d : String) : String :=
  "- Policy Context: " ++ d

/-- The output of `row_to_text` as its list of newline-terminated lines, in
emission order.  Every `text += f"...\n"` in the source contributes exactly
one entry (the Food Environment line is assembled from the two pieces that
together end in one newline). -/
def row_to_text_lines (r : Row) : List String :=
  [headerLine r]
    ++ (match r.composite_risk with
        | some risk => [alertLine r, riskScoreLine risk]
        | none => [])
    ++ [demographicsLine r, healthLine r, foodEnvLine r, foodSecLine r, physActivityLine r]
    ++ (match r.Description with
        | some d => [envContextLine d]
        | none => [])
    ++ (match r.Rule_Description with
        | some d => [policyContextLine d]
        | none => [])

/-- `row_to_text` from `generate_assets.py`: the concatenation of its lines,
each terminated by a newline. -/
def row_to_text (r : Row) : String :=
  String.join ((row_to_text_lines r).map (fun l => l ++ "\n"))

/-- A line carries the risk-alert marker when its first ten characters are
the fixed alert prefix written by `row_to_text`. -/
def hasAlertMarker (l : String) : Bool :=
  decide (l.data.take 10 = ("!!! ALERT:").data)

/-- Chunk metadata as built in `generate_assets`:
`{"county": row.get('County'), "state": row.get('State'),
  "is_high_risk": pd.notna(row.get('composite_risk'))}`. -/
structure Metadata where
  county : Val
  state : Val
  is_high_risk : Bool
deriving DecidableEq

/-- The `Chunk` dataclass of `rag_service.py`. -/
structure Chunk where
  text : String
  metadata : Metadata
  chunk_id : Nat
deriving DecidableEq

/-- Metadata of the chunk built from one row. -/
def rowMetadata (r : Row) : Metadata :=
  { county := r.County, state := r.State, is_high_risk := r.composite_risk.isSome }

/-- The chunk-building loop of `generate_assets`:
`for i, row in df_combined.iterrows(): chunks.append(Chunk(text, metadata, i))`
(the merged dataframe carries a fresh 0-based range index, so `i` is the row
position).  The first argument is the running value of `i`. -/
def buildChunks : Nat → List Row → List Chunk
  | _, [] => []
  | i, r :: rs =>
    { text := row_to_text r, metadata := rowMetadata r, chunk_id := i } :: buildChunks (i + 1) rs

/-- `generate_assets` (offline build), with the encoder and FAISS
`normalize_L2` as parameters: builds the chunk list and the ordered list of
vectors added to the `IndexFlatIP` (batch encode of `texts`, row-wise
normalization, then `index.add(embeddings)` in order). -/
def generate_assets (encode : String → Vec) (normalizeFn : Vec → Vec) (rows : List Row) :
    List Chunk × List Vec :=
  let chunks := buildChunks 0 rows
  let texts := rows.map row_to_text
  let embeddings := (texts.map encode).map normalizeFn
  (chunks, embeddings)

/-- The Groq client object; holds the key it was constructed with. -/
structure Client where
  api_key : String
deriving DecidableEq

/-- Mutable state of a `RAGService` instance (its `__init__` fields). -/
structure RState where
  csv_path : String
  index_path : String
  chunks_path : String
  model_name : String
  model : Option (String → Vec)
  index : Option (List Vec)
  chunks : List Chunk
  client : Option Client
  initialized : Bool

/-- `RAGService()` with the default constructor arguments. -/
def RAGService.new : RState :=
  { csv_path := "rag_df.csv"
    index_path := "faiss_index.bin"
    chunks_path := "chunks.pkl"
    model_name := "all-MiniLM-L6-v2"
    model := none
    index := none
    chunks := []
    client := none
    initialized := false }

/-- The process environment seen by `initialize`: the sentence-transformer
loader (by model name), the filesystem contents at the index and chunk paths
(`none` when `os.path.exists` is false), and the `GROQ_API_KEY` variable. -/
structure Env where
  load : String → (String → Vec)
  fileIndex : String → Option (List Vec)
  fileChunks : String → Option (List Chunk)
  apiKey : Option String

/-- The `RAGService.initialize` method (named `initService` here because the
source name is a reserved word in Lean): returns the updated state and the
list of `print`ed log lines, in emission order.  When `self.initialized` is
already true it returns immediately. -/
def initService (env : Env) (st : RState) : RState × List String :=
  if st.initialized then (st, [])
  else
    let logModel := "Loading embedding model: " ++ (st.model_name ++ "...")
    let loadedIndex := env.fileIndex st.index_path
    let logIdx :=
      match loadedIndex with
      | some _ => "Loading FAISS index from " ++ (st.index_path ++ "...")
      | none => "Warning: " ++ (st.index_path ++ " not found. RAG will not work.")
    let loadedChunks := env.fileChunks st.chunks_path
    let logCh :=
      match loadedChunks with
      | some _ => "Loading chunks from " ++ (st.chunks_path ++ "...")
      | none => "Warning: " ++ (st.chunks_path ++ " not found.")
    let logKey :=
      match env.apiKey with
      | some _ => ([] : List String)
      | none => ["Warning: GROQ_API_KEY not found in environment."]
    ({ st with
        model := some (env.load st.model_name)
        index := match loadedIndex with
          | some v => some v
          | none => st.index
        chunks := match loadedChunks with
          | some cs => cs
          | none => st.chunks
        client := match env.apiKey with
          | some k => some { api_key := k }
          | none => st.client
        initialized := true },
      logModel :: logIdx :: logCh :: logKey)

/-- Inner product of two vectors (`IndexFlatIP` scoring). -/
def ip (a b : Vec) : ℚ := (List.zipWith (fun x y => x * y) a b).sum

/-- Every stored vector scored against the query, tagged with its row index. -/
def searchScores (vs : List Vec) (q : Vec) : List (Int × ℚ) :=
  (List.range vs.length).map (fun i => (Int.ofNat i, ip q (vs.getD i [])))

/-- FAISS result order: descending score, ties broken by smaller index. -/
def hitRel (a b : Int × ℚ) : Prop := b.2 < a.2 ∨ (a.2 = b.2 ∧ a.1 ≤ b.1)

instance : DecidableRel hitRel :=
  fun a b => inferInstanceAs (Decidable (b.2 < a.2 ∨ (a.2 = b.2 ∧ a.1 ≤ b.1)))

/-- The sentinel pair FAISS uses to pad results when `k` exceeds `ntotal`:
id `-1` with the most negative representable score. -/
def padHit : Int × ℚ := (-1, -((10 : ℚ) ^ 38))

/-- `index.search(q, k)` on an `IndexFlatIP` holding `vs`: the `k` best
(index, inner-product) pairs, padded with `padHit` entries when `k` exceeds
the number of stored vectors. -/
def search (vs : List Vec) (q : Vec) (k : Nat) : List (Int × ℚ) :=
  (List.insertionSort hitRel (searchScores vs q)).take k
    ++ List.replicate (k - vs.length) padHit

/-- `max(0.0, min(1.0, float(dist)))` from `RAGService.retrieve`. -/
def clamp01 (x : ℚ) : ℚ := max 0 (min 1 x)

/-- One iteration of the result loop of `retrieve`: keep the chunk at the
returned index with the clamped score when `0 <= idx < len(chunks)`,
otherwise skip the entry. -/
def resultStep (chunks : List Chunk) (p : Int × ℚ) : Option (Chunk × ℚ) :=
  match chunks.get? (Int.toNat p.1) with
  | some c => if (0 : Int) ≤ p.1 then some (c, clamp01 p.2) else none
  | none => none

/-- The result loop of `retrieve` over all returned (idx, dist) pairs. -/
def buildResults (chunks : List Chunk) (hits : List (Int × ℚ)) : List (Chunk × ℚ) :=
  hits.filterMap (resultStep chunks)

/-- `RAGService.retrieve`.  The first component is the returned list, or an
uncaught Python exception (as `Except.error`); the second component records
the texts `self.model.encode` was invoked on during the call. -/
def retrieve (st : RState) (normalizeFn : Vec → Vec) (query : String) (top_k : Nat) :
    Except String (List (Chunk × ℚ)) × List String :=
  if st.index.isNone || st.chunks.isEmpty then (Except.ok [], [])
  else
    match st.model with
    | none => (Except.error "AttributeError: NoneType object has no attribute encode", [])
    | some enc =>
      let qe := normalizeFn (enc query)
      let hits := search (st.index.getD []) qe top_k
      (Except.ok (buildResults st.chunks hits), [query])

/-- The dictionary returned by `RAGService.ask`: either the error dict
`{"error": msg}` or the success dict with answer, sources and context. -/
inductive AskResult where
  | errorDict (msg : String)
  | answerDict (answer : String) (sources : List (Metadata × ℚ)) (context_used : String)
deriving DecidableEq

/-- The fixed message of the no-client error dict in `ask`. -/
def noClientMsg : String :=
  "Groq client not initialized. Set GROQ_API_KEY environment variable."

/-- The context block of `ask`: retrieved chunk texts joined by blank lines,
each prefixed with its `[Source: county, state]` tag. -/
def contextOf (rcs : List (Chunk × ℚ)) : String :=
  String.intercalate "\n\n" (rcs.map (fun p =>
    "[Source: " ++ ((p.1.metadata.county.getD "Unknown") ++ (", " ++ ((p.1.metadata.state.getD "Unknown") ++ ("] " ++ p.1.text))))))

/-- The prompt f-string assembled by `ask` around the context and question. -/
def promptOf (context query : String) : String :=
  "\n        You are an expert in U.S. food environment and health analysis. \n        Use the following retrieved context to answer the user\x27s question accurately.\n        \n        FORMATTING & STYLE RULES:\n        1. NEVER mention words like \"context\", \"provided data\", \"the text above\", or \"based on the information\" in your response.\n        2. Speak directly as an expert performing the analysis.\n        3. Use **bold text** for key metrics like percentages or scores.\n        4. Use bullet points for lists of facts or recommendations.\n        5. Use Markdown TABLES when comparing data for two or more counties.\n        6. Keep your tone professional, authoritative, and data-driven.\n        \n        Context:\n        " ++ (context ++ ("\n        \n        User Question: " ++ (query ++ "\n        \n        Answer:\n        ")))

/-- `RAGService.ask`, with the Groq chat-completion call as the `completion`
parameter (`Except.error` there models the exception the `try` catches).
Returns the updated state (lazy initialization) and either the returned
dict or an uncaught exception (`Except.error` at the outer level, which can
only arise from `retrieve` itself raising). -/
def ask (env : Env) (completion : String → Except String String) (normalizeFn : Vec → Vec)
    (st : RState) (query : String) : RState × Except String AskResult :=
  let st1 := if st.initialized then st else (initService env st).1
  if st1.client.isNone then
    (st1, Except.ok (AskResult.errorDict noClientMsg))
  else
    match (retrieve st1 normalizeFn query 10).1 with
    | Except.error e => (st1, Except.error e)
    | Except.ok rcs =>
      let context := contextOf rcs
      let prompt := promptOf context query
      match completion prompt with
      | Except.ok answer =>
        (st1, Except.ok (AskResult.answerDict answer (rcs.map (fun p => (p.1.metadata, p.2))) context))
      | Except.error e => (st1, Except.ok (AskResult.errorDict e))

/-- A concrete high-risk county row (the `Alpha, CA` example of the spec). -/
def sampleRowRisk : Row :=
  { County := some "Alpha"
    State := some "CA"
    Population := some "1000"
    Poverty_Rate := some "20"
    Median_Income := some "50000"
    Adult_Obesity_Rate13 := some "40"
    Adult_Diabetes_Rate13 := some "12"
    Grocery_Stores_Per1000 := some "0.5"
    Farmers_Markets_Count_16 := some "3"
    FOODINSEC_13_15 := some "15"
    PCT_LACCESS_POP15 := some "10"
    FFRPTH14 := some "0.8"
    GYMs_Per_1000_Count_14 := some "0.1"
    composite_risk := some "8.2"
    Cluster := some "1"
    Description := none
    Rule_Description := none }

/-- A concrete row with no risk-cluster match (the `Beta, TX` example). -/
def sampleRowNoRisk : Row :=
  { sampleRowRisk with
    County := some "Beta"
    State := some "TX"
    composite_risk := none
    Cluster := none }

/-- A concrete chunk for service-level scenarios. -/
def sampleChunk : Chunk :=
  { text := "profile text"
    metadata := { county := some "Alpha", state := some "CA", is_high_risk := true }
    chunk_id := 0 }

/-- An environment with no index artifact, no chunk artifact and no API key. -/
def emptyEnv : Env :=
  { load := fun _ => fun _ => []
    fileIndex := fun _ => none
    fileChunks := fun _ => none
    apiKey := none }

/-- A degraded service state: initialized, embedding model loaded, but no
index, no chunks and no Groq client (what `initialize` produces when all
artifacts and the key are missing). -/
def degradedState : RState :=
  { RAGService.new with initialized := true, model := some (fun _ => []) }

/-- A fully loaded one-chunk service state.  (The stored vector and the
encoder output are empty vectors so that concrete runs reduce without any
rational-number normalization.) -/
def loadedState : RState :=
  { RAGService.new with
    initialized := true
    model := some (fun _ => [])
    index := some [[]]
    chunks := [sampleChunk]
    client := some { api_key := "k" } }

/-- A completion oracle that always succeeds. -/
def okCompletion : String → Except String String := fun _ => Except.ok "ANSWER"

/-- Three stored vectors, for the artifact-pairing scenario. -/
def vecs3 : List Vec := [[1], [2], [3]]

/-- An environment whose index artifact holds three vectors but whose chunk
artifact holds a single chunk: a mismatched pair. -/
def envMismatch : Env :=
  { load := fun _ => fun _ => []
    fileIndex := fun _ => some vecs3
    fileChunks := fun _ => some [sampleChunk]
    apiKey := some "k" }

/-- The same environment with a matched pair (three chunks). -/
def envMatched : Env :=
  { envMismatch with fileChunks := fun _ => some (List.replicate 3 sampleChunk) }

/-! Helper lemmas shared by the claim theorems. -/

/-- Re-running `initialize` on an already-initialized state returns at once. -/
theorem init_noop (env : Env) (st : RState) (h : st.initialized = true) :
    initService env st = (st, []) := by
  unfold initService
  simp [h]

/-- After any `initialize` call the `initialized` flag is set. -/
theorem init_initialized_true (env : Env) (st : RState) :
    (initService env st).1.initialized = true := by
  unfold initService
  split
  · next h => exact h
  · rfl

/-- With no index or no chunks loaded, `retrieve` returns the empty list
without touching the model. -/
theorem retrieve_unloaded (st : RState) (normalizeFn : Vec → Vec) (q : String) (k : Nat)
    (h : st.index = none ∨ st.chunks = []) :
    retrieve st normalizeFn q k = (Except.ok [], []) := by
  unfold retrieve
  rcases h with h | h <;> simp [h]

/-- The clamp is bounded below by 0. -/
theorem clamp01_nonneg (x : ℚ) : 0 ≤ clamp01 x := le_max_left 0 _

/-- The clamp is bounded above by 1. -/
theorem clamp01_le_one (x : ℚ) : clamp01 x ≤ 1 :=
  max_le (by norm_num) (min_le_left 1 x)

/-- Every score in a `buildResults` output is a clamped raw score. -/
theorem buildResults_score (chunks : List Chunk) (hits : List (Int × ℚ)) (p : Chunk × ℚ)
    (hp : p ∈ buildResults chunks hits) : ∃ x : ℚ, p.2 = clamp01 x := by
  obtain ⟨a, _, hfa⟩ := List.mem_filterMap.mp hp
  unfold resultStep at hfa
  rcases hg : chunks.get? (Int.toNat a.1) with _ | c
  · rw [hg] at hfa
    cases hfa
  · rw [hg] at hfa
    change (if (0 : Int) ≤ a.1 then some (c, clamp01 a.2) else none) = some p at hfa
    by_cases h0 : (0 : Int) ≤ a.1
    · rw [if_pos h0] at hfa
      obtain ⟨rfl⟩ := hfa
      exact ⟨a.2, rfl⟩
    · rw [if_neg h0] at hfa
      cases hfa

/-- The state produced by `ask` is the lazily-initialized state, whatever
branch the call takes. -/
theorem ask_fst_of_initialized (env : Env) (completion : String → Except String String)
    (normalizeFn : Vec → Vec) (st : RState) (q : String) (h : st.initialized = true) :
    (ask env completion normalizeFn st q).1 = st := by
  unfold ask
  simp only [h, if_true]
  split
  · rfl
  · split
    · rfl
    · split <;> rfl

/-! Claim theorems. -/

/-- C9: `initialize` is idempotent — after one call has completed, a second
call (under any environment, even a changed one) returns immediately,
leaving the service state unchanged and printing nothing. -/
theorem C9_initialize_idempotent (env env2 : Env) (st : RState) :
    initService env2 (initService env st).1 = ((initService env st).1, []) :=
  init_noop env2 _ (init_initialized_true env st)

/-- C10: after one `initialize` call on a fresh state with the index
artifact, the chunk artifact and the API key all missing, the flag is set,
nothing was loaded, and every later `initialize` (or the lazy re-init inside
`ask`) under any richer environment is a no-op — late-arriving artifacts are
never loaded. -/
theorem C10_no_late_reload (env : Env) (st : RState) (h1 : st.initialized = false)
    (h2 : env.fileIndex st.index_path = none) (h3 : env.fileChunks st.chunks_path = none)
    (h4 : env.apiKey = none) :
    ((initService env st).1.initialized = true)
    ∧ ((initService env st).1.index = st.index)
    ∧ ((initService env st).1.chunks = st.chunks)
    ∧ ((initService env st).1.client = st.client)
    ∧ (∀ env2 : Env, initService env2 (initService env st).1 = ((initService env st).1, []))
    ∧ (∀ (env2 : Env) (completion : String → Except String String)
        (normalizeFn : Vec → Vec) (q : String),
        (ask env2 completion normalizeFn (initService env st).1 q).1 = (initService env st).1) := by
  refine ⟨init_initialized_true env st, ?_, ?_, ?_, ?_, ?_⟩
  · simp [initService, h1, h2]
  · simp [initService, h1, h3]
  · simp [initService, h1, h4]
  · intro env2
    exact init_noop env2 _ (init_initialized_true env st)
  · intro env2 completion normalizeFn q
    exact ask_fst_of_initialized env2 completion normalizeFn _ q (init_initialized_true env st)

/-- Witness for C10 at the default constructor state and the empty
environment. -/
theorem C10_no_late_reload_witness :
    (initService emptyEnv RAGService.new).1.initialized = true :=
  (C10_no_late_reload emptyEnv RAGService.new rfl rfl rfl rfl).1

/-- C5: with the index not loaded or the chunk store empty, `retrieve`
returns the empty sequence (and invokes nothing), rather than raising. -/
theorem C5_retrieve_unloaded_empty (st : RState) (normalizeFn : Vec → Vec) (q : String)
    (k : Nat) (h : st.index = none ∨ st.chunks = []) :
    retrieve st normalizeFn q k = (Except.ok [], []) :=
  retrieve_unloaded st normalizeFn q k h

/-- Witness for C5 at the fresh constructor state. -/
theorem C5_retrieve_unloaded_empty_witness :
    retrieve RAGService.new id "anything" 5 = (Except.ok [], []) :=
  C5_retrieve_unloaded_empty RAGService.new id "anything" 5 (Or.inl rfl)

/-- C4: every similarity score returned by `retrieve` lies in [0, 1]. -/
theorem C4_similarity_in_unit_interval (st : RState) (normalizeFn : Vec → Vec) (q : String)
    (k : Nat) (res : List (Chunk × ℚ)) (h : (retrieve st normalizeFn q k).1 = Except.ok res) :
    ∀ p ∈ res, 0 ≤ p.2 ∧ p.2 ≤ 1 := by
  intro p hp
  unfold retrieve at h
  by_cases hg : (st.index.isNone || st.chunks.isEmpty) = true
  · rw [if_pos hg] at h
    simp only [Except.ok.injEq] at h
    subst h
    cases hp
  · rw [if_neg hg] at h
    rcases hm : st.model with _ | enc
    · rw [hm] at h
      cases h
    · rw [hm] at h
      simp only [Except.ok.injEq] at h
      subst h
      obtain ⟨x, hx⟩ := buildResults_score _ _ p hp
      rw [hx]
      exact ⟨clamp01_nonneg x, clamp01_le_one x⟩

/-- Witness for C4 on a loaded one-chunk state: the concrete run yields a
single result whose score is 0. -/
theorem C4_similarity_in_unit_interval_witness :
    0 ≤ (sampleChunk, (0 : ℚ)).2 ∧ (sampleChunk, (0 : ℚ)).2 ≤ 1 :=
  C4_similarity_in_unit_interval loadedState id "q" 5 [(sampleChunk, 0)] rfl
    (sampleChunk, 0) (by simp)

/-- Position lookup in the chunk-building loop: the chunk at position `i`
is built from the row at position `i` and carries id `j + i`. -/
theorem buildChunks_get (rows : List Row) : ∀ j i : Nat,
    (buildChunks j rows)[i]?
      = (rows[i]?).map
          (fun r => { text := row_to_text r, metadata := rowMetadata r, chunk_id := j + i }) := by
  induction rows with
  | nil =>
    intro j i
    simp [buildChunks]
  | cons r rs ih =>
    intro j i
    cases i with
    | zero => simp [buildChunks]
    | succ n =>
      simp only [buildChunks, List.getElem?_cons_succ, ih (j + 1) n]
      have hadd : j + 1 + n = j + (n + 1) := by omega
      rw [hadd]

/-- The loop builds exactly one chunk per row. -/
theorem buildChunks_length (rows : List Row) : ∀ j : Nat,
    (buildChunks j rows).length = rows.length := by
  induction rows with
  | nil => intro j; rfl
  | cons r rs ih => intro j; simp [buildChunks, ih (j + 1)]

/-- C1: in every offline build, the chunk and vector lists have one entry
per record, the `i`-th chunk has `chunk_id = i`, and the `i`-th vector added
to the index is the normalized embedding of the `i`-th chunk's text — no
reordering, filtering or deduplication happens in between. -/
theorem C1_positional_invariant (encode : String → Vec) (normalizeFn : Vec → Vec)
    (rows : List Row) (i : Nat) (h : i < rows.length) :
    ((generate_assets encode normalizeFn rows).1.length = rows.length)
    ∧ ((generate_assets encode normalizeFn rows).2.length = rows.length)
    ∧ ((((generate_assets encode normalizeFn rows).1)[i]?).map Chunk.chunk_id = some i)
    ∧ (((generate_assets encode normalizeFn rows).2)[i]?
        = (((generate_assets encode normalizeFn rows).1)[i]?).map
            (fun c => normalizeFn (encode c.text))) := by
  obtain ⟨r, hr⟩ : ∃ r, rows[i]? = some r := ⟨rows[i], List.getElem?_eq_getElem h⟩
  refine ⟨?_, ?_, ?_, ?_⟩
  · simp [generate_assets, buildChunks_length]
  · simp [generate_assets]
  · show ((buildChunks 0 rows)[i]?).map Chunk.chunk_id = some i
    rw [buildChunks_get rows 0 i, hr]
    simp
  · show (((rows.map row_to_text).map encode).map normalizeFn)[i]?
        = ((buildChunks 0 rows)[i]?).map (fun c => normalizeFn (encode c.text))
    rw [buildChunks_get rows 0 i, hr]
    simp [List.getElem?_map, hr]

/-- Witness for C1 on a one-row build. -/
theorem C1_positional_invariant_witness :
    (((generate_assets (fun _ => []) id [sampleRowRisk]).1)[0]?).map Chunk.chunk_id = some 0 :=
  (C1_positional_invariant (fun _ => []) id [sampleRowRisk] 0 (by decide)).2.2.1

/-- One score entry per stored vector. -/
theorem searchScores_length (vs : List Vec) (q : Vec) :
    (searchScores vs q).length = vs.length := by
  simp [searchScores]

/-- Every score entry carries the index of a stored vector. -/
theorem searchScores_mem (vs : List Vec) (q : Vec) (x : Int × ℚ)
    (hx : x ∈ searchScores vs q) : ∃ j : Nat, j < vs.length ∧ x.1 = Int.ofNat j := by
  obtain ⟨j, hj, rfl⟩ := List.mem_map.mp hx
  exact ⟨j, List.mem_range.mp hj, rfl⟩

/-- FAISS padding entries (id `-1`) are skipped by the result loop. -/
theorem resultStep_pad (chunks : List Chunk) : resultStep chunks padHit = none := by
  unfold resultStep
  rcases hg : chunks.get? (Int.toNat padHit.1) with _ | c <;> simp [hg, padHit]

/-- A whole block of padding entries contributes no results. -/
theorem buildResults_replicate_pad (chunks : List Chunk) (n : Nat) :
    buildResults chunks (List.replicate n padHit) = [] := by
  unfold buildResults
  simp [List.filterMap_replicate, resultStep_pad]

/-- `filterMap` keeps the length when the function succeeds everywhere. -/
theorem length_filterMap_of_isSome {α β : Type} (f : α → Option β) :
    ∀ l : List α, (∀ x ∈ l, (f x).isSome) → (l.filterMap f).length = l.length := by
  intro l
  induction l with
  | nil => intro _; rfl
  | cons a t ih =>
    intro h
    obtain ⟨b, hb⟩ := Option.isSome_iff_exists.mp (h a (by simp))
    simp [List.filterMap_cons, hb, ih (fun x hx => h x (by simp [hx]))]

/-- C6: when `top_k` is at least the number of chunks (with the index and
chunk list a matched pair), `retrieve` returns exactly one result per chunk:
the FAISS padding entries are filtered out and every real index survives the
range check, so no error and no padding results are produced. -/
theorem C6_k_overflow_returns_all (st : RState) (normalizeFn : Vec → Vec) (q : String) (k : Nat)
    (vs : List Vec) (enc : String → Vec)
    (hidx : st.index = some vs) (hmodel : st.model = some enc)
    (hlen : vs.length = st.chunks.length) (hne : st.chunks ≠ []) (hk : st.chunks.length ≤ k) :
    ∃ res, (retrieve st normalizeFn q k).1 = Except.ok res
      ∧ res.length = st.chunks.length := by
  have hguard : (st.index.isNone || st.chunks.isEmpty) = false := by
    cases hc : st.chunks with
    | nil => exact absurd hc hne
    | cons a t => simp [hidx, hc]
  refine ⟨buildResults st.chunks (search vs (normalizeFn (enc q)) k), ?_, ?_⟩
  · simp [retrieve, hguard, hmodel, hidx, hne]
  · have hsort : (List.insertionSort hitRel (searchScores vs (normalizeFn (enc q)))).length
        = vs.length := by
      rw [List.length_insertionSort (r := hitRel)]
      exact searchScores_length vs (normalizeFn (enc q))
    have htake : (List.insertionSort hitRel (searchScores vs (normalizeFn (enc q)))).take k
        = List.insertionSort hitRel (searchScores vs (normalizeFn (enc q))) :=
      List.take_of_length_le (by rw [hsort, hlen]; exact hk)
    unfold search buildResults
    rw [htake, List.filterMap_append, List.length_append]
    have h1 : ((List.insertionSort hitRel (searchScores vs (normalizeFn (enc q)))).filterMap
        (resultStep st.chunks)).length = vs.length := by
      rw [length_filterMap_of_isSome]
      · exact hsort
      · intro x hx
        obtain ⟨j, hj, hxe⟩ :=
          searchScores_mem vs (normalizeFn (enc q)) x ((List.mem_insertionSort hitRel).mp hx)
        have hjc : j < st.chunks.length := hlen ▸ hj
        obtain ⟨c, hc⟩ : ∃ c, st.chunks.get? j = some c := by
          rw [List.get?_eq_getElem?]
          exact ⟨st.chunks[j], List.getElem?_eq_getElem hjc⟩
        unfold resultStep
        rw [hxe]
        have htn : Int.toNat (Int.ofNat j) = j := rfl
        rw [htn, hc]
        change (if (0 : Int) ≤ Int.ofNat j then some (c, clamp01 x.2) else none).isSome = true
        rw [if_pos (show (0 : Int) ≤ Int.ofNat j from Int.ofNat_le.mpr (Nat.zero_le j))]
        rfl
    have h2 : ((List.replicate (k - vs.length) padHit).filterMap
        (resultStep st.chunks)).length = 0 := by
      have := buildResults_replicate_pad st.chunks (k - vs.length)
      unfold buildResults at this
      rw [this]
      rfl
    rw [h1, h2]
    omega

/-- Witness for C6 on the loaded one-chunk state with `top_k = 5`. -/
theorem C6_k_overflow_returns_all_witness :
    ∃ res, (retrieve loadedState id "q" 5).1 = Except.ok res
      ∧ res.length = loadedState.chunks.length :=
  C6_k_overflow_returns_all loadedState id "q" 5 [[]] (fun _ => []) rfl rfl rfl
    (by simp [loadedState]) (by simp [loadedState])

/-- The alert marker of a line is decided by its first ten characters, so a
line with a fixed head of at least ten characters inherits the head's
marker, whatever the interpolated tail is. -/
theorem hasAlertMarker_append (a b : String) (h : 10 ≤ a.data.length) :
    hasAlertMarker (a ++ b) = hasAlertMarker a := by
  unfold hasAlertMarker
  rw [String.data_append, List.take_append_of_le_length h]

/-- The header line never carries the alert marker. -/
theorem hasAlertMarker_headerLine (r : Row) : hasAlertMarker (headerLine r) = false := by
  rw [headerLine, hasAlertMarker_append _ _ (by decide)]
  decide

/-- The alert line always carries the alert marker. -/
theorem hasAlertMarker_alertLine (r : Row) : hasAlertMarker (alertLine r) = true := by
  rw [alertLine, hasAlertMarker_append _ _ (by decide)]
  decide

/-- The risk-score line never carries the alert marker. -/
theorem hasAlertMarker_riskScoreLine (s : String) : hasAlertMarker (riskScoreLine s) = false := by
  rw [riskScoreLine, hasAlertMarker_append _ _ (by decide)]
  decide

/-- The demographics line never carries the alert marker. -/
theorem hasAlertMarker_demographicsLine (r : Row) :
    hasAlertMarker (demographicsLine r) = false := by
  rw [demographicsLine, hasAlertMarker_append _ _ (by decide)]
  decide

/-- The health-outcomes line never carries the alert marker. -/
theorem hasAlertMarker_healthLine (r : Row) : hasAlertMarker (healthLine r) = false := by
  rw [healthLine, hasAlertMarker_append _ _ (by decide)]
  decide

/-- The food-environment line never carries the alert marker. -/
theorem hasAlertMarker_foodEnvLine (r : Row) : hasAlertMarker (foodEnvLine r) = false := by
  rw [foodEnvLine, hasAlertMarker_append _ _ (by decide)]
  decide

/-- The food-security line never carries the alert marker. -/
theorem hasAlertMarker_foodSecLine (r : Row) : hasAlertMarker (foodSecLine r) = false := by
  rw [foodSecLine, hasAlertMarker_append _ _ (by decide)]
  decide

/-- The physical-activity line never carries the alert marker. -/
theorem hasAlertMarker_physActivityLine (r : Row) :
    hasAlertMarker (physActivityLine r) = false := by
  rw [physActivityLine, hasAlertMarker_append _ _ (by decide)]
  decide

/-- The environmental-context line never carries the alert marker. -/
theorem hasAlertMarker_envContextLine (d : String) :
    hasAlertMarker (envContextLine d) = false := by
  rw [envContextLine, hasAlertMarker_append _ _ (by decide)]
  decide

/-- The policy-context line never carries the alert marker. -/
theorem hasAlertMarker_policyContextLine (d : String) :
    hasAlertMarker (policyContextLine d) = false := by
  rw [policyContextLine, hasAlertMarker_append _ _ (by decide)]
  decide

/-- C2: for every record, the profile text contains the risk-alert line iff
the composite-risk field is non-null, and when present the alert line is the
first content line immediately after the header (line 0 is the header, line
1 the alert). -/
theorem C2_risk_alert_iff (r : Row) :
    ((row_to_text_lines r).any hasAlertMarker = r.composite_risk.isSome)
    ∧ ((row_to_text_lines r)[0]? = some (headerLine r))
    ∧ (r.composite_risk.isSome = true → (row_to_text_lines r)[1]? = some (alertLine r)) := by
  unfold row_to_text_lines
  rcases hcr : r.composite_risk with _ | risk <;>
    rcases hd : r.Description with _ | d <;>
    rcases hrd : r.Rule_Description with _ | rd <;>
      simp [hasAlertMarker_headerLine, hasAlertMarker_alertLine, hasAlertMarker_riskScoreLine,
        hasAlertMarker_demographicsLine, hasAlertMarker_healthLine, hasAlertMarker_foodEnvLine,
        hasAlertMarker_foodSecLine, hasAlertMarker_physActivityLine,
        hasAlertMarker_envContextLine, hasAlertMarker_policyContextLine]

/-- Witness for C2 on the concrete high-risk row: the alert line sits right
after the header. -/
theorem C2_risk_alert_iff_witness :
    (row_to_text_lines sampleRowRisk)[1]? = some (alertLine sampleRowRisk) :=
  (C2_risk_alert_iff sampleRowRisk).2.2 (by rfl)

/-- C3 counterexample: in the degraded state (no index, no chunks, no
client), `ask` returns the `{"error": ...}` dict with the fixed no-client
message — not an answer dict with an empty sources list. -/
theorem C3_counterexample :
    ((ask emptyEnv okCompletion id degradedState "anything").2
      = Except.ok (AskResult.errorDict noClientMsg))
    ∧ ¬ ∃ a c, (ask emptyEnv okCompletion id degradedState "anything").2
        = Except.ok (AskResult.answerDict a [] c) := by
  constructor
  · rfl
  · rintro ⟨a, c, hc⟩
    rw [show (ask emptyEnv okCompletion id degradedState "anything").2
        = Except.ok (AskResult.errorDict noClientMsg) from rfl] at hc
    simp at hc

/-- C3 amended: in a degraded state where retrieval is unavailable, `ask`
never raises — it returns a dict: the fixed no-client error dict when the
generation client is missing, and otherwise a dict whose sources list (if it
is an answer dict) is empty. -/
theorem C3_degraded_ask_amended (env : Env) (completion : String → Except String String)
    (normalizeFn : Vec → Vec) (st : RState) (q : String)
    (hinit : st.initialized = true) (hdeg : st.index = none ∨ st.chunks = []) :
    ∃ r, (ask env completion normalizeFn st q).2 = Except.ok r
      ∧ (st.client = none → r = AskResult.errorDict noClientMsg)
      ∧ (∀ a srcs c, r = AskResult.answerDict a srcs c → srcs = []) := by
  have hretr := retrieve_unloaded st normalizeFn q 10 hdeg
  rcases hcl : st.client with _ | cl
  · refine ⟨AskResult.errorDict noClientMsg, ?_, fun _ => rfl, ?_⟩
    · unfold ask
      simp [hinit, hcl]
    · intro a srcs c h
      cases h
  · rcases hcomp : completion (promptOf (contextOf []) q) with e | ans
    · refine ⟨AskResult.errorDict e, ?_, ?_, ?_⟩
      · unfold ask
        simp [hinit, hcl, hretr, hcomp]
      · intro hnone
        cases hnone
      · intro a srcs c h
        cases h
    · refine ⟨AskResult.answerDict ans [] (contextOf []), ?_, ?_, ?_⟩
      · unfold ask
        simp [hinit, hcl, hretr, hcomp]
      · intro hnone
        cases hnone
      · intro a srcs c h
        simp only [AskResult.answerDict.injEq] at h
        exact h.2.1.symm

/-- Witness for the amended C3 at the concrete degraded state. -/
theorem C3_degraded_ask_amended_witness :
    ∃ r, (ask emptyEnv okCompletion id degradedState "anything").2 = Except.ok r
      ∧ (degradedState.client = none → r = AskResult.errorDict noClientMsg)
      ∧ (∀ a srcs c, r = AskResult.answerDict a srcs c → srcs = []) :=
  C3_degraded_ask_amended emptyEnv okCompletion id degradedState "anything" rfl (Or.inl rfl)

/-- C7 counterexample: `initialize` accepts a mismatched artifact pair
(three index vectors, one chunk) without rejecting it, and emits exactly the
log it emits for a matched pair — no corruption is detected or logged. -/
theorem C7_counterexample :
    ((initService envMismatch RAGService.new).1.index = some vecs3)
    ∧ ((initService envMismatch RAGService.new).1.chunks = [sampleChunk])
    ∧ ((initService envMismatch RAGService.new).1.initialized = true)
    ∧ ((initService envMismatch RAGService.new).2
        = (initService envMatched RAGService.new).2) :=
  ⟨rfl, rfl, rfl, rfl⟩

/-- C7 amended: `initialize` performs no pairing check at load time — when
both artifacts exist it stores both and completes regardless of any length
mismatch, and its log depends only on the configured paths, the model name
and key presence, never on the loaded contents or their sizes. -/
theorem C7_no_pairing_check_amended (env : Env) (st : RState) (vs : List Vec) (cs : List Chunk)
    (h0 : st.initialized = false)
    (h1 : env.fileIndex st.index_path = some vs)
    (h2 : env.fileChunks st.chunks_path = some cs) :
    ((initService env st).1.index = some vs)
    ∧ ((initService env st).1.chunks = cs)
    ∧ ((initService env st).1.initialized = true)
    ∧ ((initService env st).2
        = ("Loading embedding model: " ++ (st.model_name ++ "..."))
          :: ("Loading FAISS index from " ++ (st.index_path ++ "..."))
          :: ("Loading chunks from " ++ (st.chunks_path ++ "..."))
          :: (match env.apiKey with
              | some _ => []
              | none => ["Warning: GROQ_API_KEY not found in environment."])) := by
  unfold initService
  simp [h0, h1, h2]

/-- Witness for the amended C7 at the mismatched environment. -/
theorem C7_no_pairing_check_amended_witness :
    (initService envMismatch RAGService.new).1.chunks = [sampleChunk] :=
  (C7_no_pairing_check_amended envMismatch RAGService.new vecs3 [sampleChunk] rfl rfl rfl).2.1

/-- C8 counterexample: an empty query is not rejected — on a loaded state
`retrieve` invokes the embedding model on `""` and returns normally instead
of raising a validation error. -/
theorem C8_counterexample :
    ((retrieve loadedState id "" 5).2 = [""])
    ∧ (∃ res, (retrieve loadedState id "" 5).1 = Except.ok res) :=
  ⟨rfl, ⟨_, rfl⟩⟩

/-- C8 amended: no query validation happens before embedding — whenever the
index is loaded, the chunk list is non-empty and the model is present,
`retrieve` invokes the embedding model on the query exactly once, empty or
not; the only pre-embedding guard is the artifact-presence check. -/
theorem C8_no_query_validation_amended (st : RState) (normalizeFn : Vec → Vec) (q : String)
    (k : Nat) (vs : List Vec) (enc : String → Vec)
    (hidx : st.index = some vs) (hmodel : st.model = some enc) (hne : st.chunks ≠ []) :
    (retrieve st normalizeFn q k).2 = [q] := by
  have hguard : (st.index.isNone || st.chunks.isEmpty) = false := by
    cases hc : st.chunks with
    | nil => exact absurd hc hne
    | cons a t => simp [hidx, hc]
  simp [retrieve, hguard, hmodel, hne, hidx]

/-- Witness for the amended C8 with the empty query on the loaded state. -/
theorem C8_no_query_validation_amended_witness :
    (retrieve loadedState id "" 5).2 = [""] :=
  C8_no_query_validation_amended loadedState id "" 5 [[]] (fun _ => []) rfl rfl
    (by simp [loadedState])
